import Mathlib

/-!
Verification of the record-access helper module `src/utils/prismaClient.ts`
of the axtro-server repository.

The module is a thin, process-wide singleton facade over a Prisma database
client: it validates table-name strings against a fixed allow-list, and
dispatches generic CRUD / pagination / transaction / raw-query operations to
the underlying client's per-table delegate.

Embedding choices:
* The singleton `prismaInstance : PrismaClient | null` becomes an
  `Option Nat` (clients are identified by a numeric id); the module-level
  mutation in `getPrismaClient` / `disconnectPrismaClient` becomes explicit
  state passing, with the "fresh instance" produced by `new PrismaClient(...)`
  supplied as an explicit id.
* Each helper function is embedded as a pure function that returns the
  dispatched delegate call it would issue, as data (`DispatchedCall`), inside
  `Except String` mirroring the synchronous `throw new Error(...)` on an
  invalid table name.  An `Except.error` result means the function threw
  before any call reached the database client.
* JavaScript numbers occurring in pagination are embedded as `Int`; the
  truthiness tests `page && perPage` and `perPage || take` from the source
  are embedded faithfully (`0` and a missing value are falsy).
* The behavior of the underlying ORM client itself (`delegate.update`,
  `delegate.upsert`, `$transaction`) is not part of this repository; where a
  claim depends on it, it is modelled from the spec in clearly marked
  definitions (`dbUpdate`, `dbUpsert`, `prismaTransaction`).
-/

namespace AxtroPrisma

/-! ## Singleton client lifecycle (lines 4-59 of prismaClient.ts) -/

/-- The module-level variable `let prismaInstance: PrismaClient | null = null`
before any call, i.e. at the start of module evaluation. -/
def initialInstance : Option Nat := none

/-- Function `getPrismaClient` (lines 21-29): if the singleton variable is null, store a
freshly constructed client (the argument `fresh` stands for the new
`PrismaClient` object allocated by `new PrismaClient({...})`) and return it;
otherwise return the stored client.  Returns (client returned, new value of the
singleton variable). -/
def getPrismaClient (inst : Option Nat) (fresh : Nat) : Nat × Option Nat :=
  match inst with
  | some c => (c, some c)
  | none => (fresh, some fresh)

/-- Function `disconnectPrismaClient` (lines 37-42): if the singleton variable holds a
client, `$disconnect` it and set the variable to null; otherwise do nothing.
Returns (new value of the singleton variable, list of clients on which
`$disconnect` was invoked by this call). -/
def disconnectPrismaClient (inst : Option Nat) : Option Nat × List Nat :=
  match inst with
  | some c => (none, [c])
  | none => (none, [])

/-- Line 59: `const prisma = getPrismaClient();` — the client captured once at
module initialization (the first fresh client is given id 0) and referenced by
every helper thereafter. -/
def prisma : Nat := (getPrismaClient initialInstance 0).1

/-- The value of the singleton variable right after module initialization. -/
def instanceAfterInit : Option Nat := (getPrismaClient initialInstance 0).2

/-! ## Table-name validation (lines 61-93) -/

/-- The allow-list `VALID_MODELS` (lines 64-70). -/
def VALID_MODELS : List String := ["User", "Folder", "File", "FileVersion", "Share"]

/-- Function `isValidModel` (lines 77-79): membership in the allow-list. -/
def isValidModel (tableName : String) : Bool :=
  VALID_MODELS.contains tableName

/-- ASCII lower-casing of one character, as `String.prototype.toLowerCase`
acts on the characters occurring in model names. -/
def asciiLower (c : Char) : Char :=
  if 'A' ≤ c && c ≤ 'Z' then Char.ofNat (c.toNat + 32) else c

/-- The expression `tableName.toLowerCase()` (line 92). -/
def toLowerCase (s : String) : String :=
  String.mk (s.data.map asciiLower)

/-- The error message thrown by `getDelegate` for an invalid model name
(line 89). -/
def invalidModelMsg (tableName : String) : String :=
  "Invalid model name: " ++ tableName ++ ". Valid models are: " ++
    String.intercalate ", " VALID_MODELS

/-- A delegate of the underlying client: the client object it is a property
of, and the property name (`prisma[tableName.toLowerCase()]`, line 92). -/
structure Delegate where
  client : Nat
  name : String
  deriving DecidableEq

/-- Function `getDelegate` (lines 87-93): throw on an invalid model name, otherwise
return the delegate `prisma[tableName.toLowerCase()]`. -/
def getDelegate (tableName : String) : Except String Delegate :=
  if !isValidModel tableName then
    .error (invalidModelMsg tableName)
  else
    .ok ⟨prisma, toLowerCase tableName⟩

/-! ## Delegate calls issued by the helpers (lines 95-474)

`R` is the type of record payloads (`data` arguments and create/update
payloads), `F` of `where` filters, `S` of `select` projections, `O` of
`orderBy` specifications.  An `Option` field is present in the argument
object exactly when the source spreads the corresponding key. -/

/-- One call on a per-table delegate, as data.  Constructors correspond
one-to-one to the delegate methods invoked by the helper functions. -/
inductive DelegateCall (R F S O : Type) where
  | create (data : R)
  | createMany (data : List R) (skipDuplicates : Bool)
  | findUnique (filter : F) (select : Option S)
  | findMany (filter : Option F) (select : Option S) (orderBy : Option O)
      (skip : Option Int) (take : Option Int)
  | findFirst (filter : Option F) (select : Option S) (orderBy : Option O)
  | update (filter : F) (data : R)
  | updateMany (filter : F) (data : R)
  | upsert (filter : F) (updateData : R) (createData : R)
  | deleteOne (filter : F)
  | deleteMany (filter : F)
  | count (filter : Option F)
  deriving DecidableEq

/-- A dispatched operation: which delegate it went to and which call was
made on it. -/
structure DispatchedCall (R F S O : Type) where
  delegate : Delegate
  call : DelegateCall R F S O
  deriving DecidableEq

/-- The argument `data: T | T[]` of `insertRecord`: a single record or an
ordered list of records (`Array.isArray` discriminates). -/
inductive InsertData (R : Type) where
  | one (record : R)
  | many (records : List R)
  deriving DecidableEq

/-- Function `insertRecord` (lines 117-134) with the `skipDuplicates` argument
supplied explicitly.  An array argument goes to `createMany` with the flag;
a single record goes to `create`. -/
def insertRecord {R F S O : Type} (tableName : String) (data : InsertData R)
    (skipDuplicates : Bool) : Except String (DispatchedCall R F S O) := do
  let delegate ← getDelegate tableName
  match data with
  | .many records => return ⟨delegate, .createMany records skipDuplicates⟩
  | .one record => return ⟨delegate, .create record⟩

/-- Function `insertRecord` as called with the `skipDuplicates` parameter omitted:
the TypeScript default parameter `skipDuplicates: boolean = true` fills in
`true`. -/
def insertRecordDefault {R F S O : Type} (tableName : String)
    (data : InsertData R) : Except String (DispatchedCall R F S O) :=
  insertRecord tableName data true

/-- Function `findRecord` (lines 155-169): `findUnique` with the query as `where` and
the optional projection spread in when supplied. -/
def findRecord {R F S O : Type} (tableName : String) (query : F)
    (select : Option S) : Except String (DispatchedCall R F S O) := do
  let delegate ← getDelegate tableName
  return ⟨delegate, .findUnique query select⟩

/-- Interface `FindManyOptions` (lines 174-182): every field optional. -/
structure FindManyOptions (F S O : Type) where
  filter : Option F
  select : Option S
  orderBy : Option O
  skip : Option Int
  take : Option Int
  page : Option Int
  perPage : Option Int
  deriving DecidableEq

/-- The options object with no field supplied (`options || {}` with
`options` undefined). -/
def emptyOptions {F S O : Type} : FindManyOptions F S O :=
  ⟨none, none, none, none, none, none, none⟩

/-- JavaScript truthiness of an optional number: `undefined` and `0` are
falsy, every other integer is truthy. -/
def numTruthy (n : Option Int) : Bool :=
  match n with
  | none => false
  | some v => v != 0

/-- Function `findManyRecords` (lines 211-233): pagination arithmetic
`calculatedSkip = page && perPage ? (page - 1) * perPage : skip` and
`calculatedTake = perPage || take`, then `findMany` with each key spread in
only when defined. -/
def findManyRecords {R F S O : Type} (tableName : String)
    (options : Option (FindManyOptions F S O)) :
    Except String (DispatchedCall R F S O) := do
  let delegate ← getDelegate tableName
  let o := options.getD emptyOptions
  let calculatedSkip : Option Int :=
    if numTruthy o.page && numTruthy o.perPage then
      some ((o.page.getD 0 - 1) * o.perPage.getD 0)
    else o.skip
  let calculatedTake : Option Int :=
    if numTruthy o.perPage then o.perPage else o.take
  return ⟨delegate, .findMany o.filter o.select o.orderBy calculatedSkip calculatedTake⟩

/-- Function `updateRecord` (lines 258-272): `update` with the query as `where` and
the data payload. -/
def updateRecord {R F S O : Type} (tableName : String) (query : F) (data : R) :
    Except String (DispatchedCall R F S O) := do
  let delegate ← getDelegate tableName
  return ⟨delegate, .update query data⟩

/-- Function `upsertRecord` (lines 297-314): `upsert` with `update: dataUpdate` and
`create: dataCreate || dataUpdate` (an omitted `dataCreate` is `undefined`,
hence falsy, so the update payload is reused for creation). -/
def upsertRecord {R F S O : Type} (tableName : String) (query : F)
    (dataUpdate : R) (dataCreate : Option R) :
    Except String (DispatchedCall R F S O) := do
  let delegate ← getDelegate tableName
  return ⟨delegate, .upsert query dataUpdate (dataCreate.getD dataUpdate)⟩

/-- Function `deleteRecord` (lines 334-343). -/
def deleteRecord {R F S O : Type} (tableName : String) (query : F) :
    Except String (DispatchedCall R F S O) := do
  let delegate ← getDelegate tableName
  return ⟨delegate, .deleteOne query⟩

/-- Function `countRecords` (lines 362-371): the `where` key spread in only when the
filter is supplied. -/
def countRecords {R F S O : Type} (tableName : String) (filter : Option F) :
    Except String (DispatchedCall R F S O) := do
  let delegate ← getDelegate tableName
  return ⟨delegate, .count filter⟩

/-- Function `findFirstRecord` (lines 392-408): receives a full `FindManyOptions`
object but destructures only `where`, `select` and `orderBy`; the pagination
fields are never read. -/
def findFirstRecord {R F S O : Type} (tableName : String)
    (options : Option (FindManyOptions F S O)) :
    Except String (DispatchedCall R F S O) := do
  let delegate ← getDelegate tableName
  let o := options.getD emptyOptions
  return ⟨delegate, .findFirst o.filter o.select o.orderBy⟩

/-- Function `updateManyRecords` (lines 432-446). -/
def updateManyRecords {R F S O : Type} (tableName : String) (filter : F)
    (data : R) : Except String (DispatchedCall R F S O) := do
  let delegate ← getDelegate tableName
  return ⟨delegate, .updateMany filter data⟩

/-- Function `deleteManyRecords` (lines 465-474). -/
def deleteManyRecords {R F S O : Type} (tableName : String) (filter : F) :
    Except String (DispatchedCall R F S O) := do
  let delegate ← getDelegate tableName
  return ⟨delegate, .deleteMany filter⟩

/-- Function `executeRawQuery` (lines 522-527): forwards the query string and the
positional parameters unchanged to `prisma.$queryRawUnsafe`; no table-name
validation is performed, so the function cannot produce the invalid-model
error.  The result records (client used, query, parameters). -/
def executeRawQuery {P : Type} (query : String) (params : List P) :
    Except String (Nat × String × List P) :=
  .ok (prisma, query, params)

/-! ## Spec-modelled semantics of the underlying ORM client

The bodies of `delegate.update`, `delegate.upsert` and `$transaction` are in
the Prisma library, not in this repository; the following definitions model
their documented behavior from the spec so that the claims about not-found
errors, upsert create/update paths, and transactional atomicity can be
stated.  Stores are lists of records, filters are boolean predicates. -/

/-- Database errors surfaced by the modelled client. -/
inductive DbError where
  | notFound
  deriving DecidableEq

/-- Modelled from the spec: `delegate.update` of the underlying ORM client
("update-one on a filter matching zero records fails with a not-found-class
error; the stored data set is unchanged", "fails if no record matches the
filter").  Updates the first record matching `m` using `u`, returning the
updated record and the new store; fails with `notFound` when no record
matches. -/
def dbUpdate {R : Type} (m : R → Bool) (u : R → R) :
    List R → Except DbError (R × List R)
  | [] => .error .notFound
  | r :: rs =>
    if m r then .ok (u r, u r :: rs)
    else
      match dbUpdate m u rs with
      | .ok (x, rs') => .ok (x, r :: rs')
      | .error e => .error e

/-- The store after a `dbUpdate` call: unchanged when the call failed. -/
def dbUpdateStore {R : Type} (m : R → Bool) (u : R → R) (s : List R) : List R :=
  match dbUpdate m u s with
  | .ok (_, s') => s'
  | .error _ => s

/-- Modelled from the spec: `delegate.upsert` of the underlying ORM client
("create path used only when filter matches nothing").  When some record
matches `m`, the first matching record is updated with `u`; otherwise the
record `c` is created. -/
def dbUpsert {R : Type} (m : R → Bool) (u : R → R) (c : R) (s : List R) :
    List R :=
  match dbUpdate m u s with
  | .ok (_, s') => s'
  | .error _ => s ++ [c]

/-- A unit of work for the transaction model: a sequence of operations, each
transforming the store or failing. -/
def runOps {σ ε : Type} (ops : List (σ → Except ε σ)) (s : σ) : Except ε σ :=
  match ops with
  | [] => .ok s
  | f :: fs =>
    match f s with
    | .ok s' => runOps fs s'
    | .error e => .error e

/-- Modelled from the spec: `prisma.$transaction` of the underlying ORM
client ("all contained operations commit or roll back atomically; any
failure inside aborts the whole unit").  The callback receives the store and
returns a result and the new store, or fails; on failure the original store
is kept and the callback's error is surfaced unchanged. -/
def prismaTransaction {σ ε α : Type} (cb : σ → Except ε (α × σ)) (s : σ) :
    Except ε α × σ :=
  match cb s with
  | .ok (a, s') => (.ok a, s')
  | .error e => (.error e, s)

/-- Function `executeTransaction` (lines 501-505): forwards the callback to
`prisma.$transaction`; the result records the client used. -/
def executeTransaction {σ ε α : Type} (cb : σ → Except ε (α × σ)) (s : σ) :
    Nat × (Except ε α × σ) :=
  (prisma, prismaTransaction cb s)

/-- A sequence of store operations packaged as a transaction callback with
unit result, for expressing the A-then-B atomicity scenario. -/
def seqCallback {σ ε : Type} (ops : List (σ → Except ε σ)) (s : σ) :
    Except ε (Unit × σ) :=
  match runOps ops s with
  | .ok s' => .ok ((), s')
  | .error e => .error e

/-- String `sub` occurs as a contiguous substring of `s`. -/
def containsStr (s sub : String) : Prop :=
  ∃ p q, s = p ++ sub ++ q

/-! ## Helper lemmas -/

/-- The error message, with the fixed suffix computed. -/
lemma invalidModelMsg_eq (t : String) :
    invalidModelMsg t =
      "Invalid model name: " ++
        (t ++ ". Valid models are: User, Folder, File, FileVersion, Share") := by
  simp only [invalidModelMsg, VALID_MODELS, String.append_assoc]
  rfl

/-- The error message contains the offending table name. -/
lemma invalidModelMsg_contains_name (t : String) :
    containsStr (invalidModelMsg t) t :=
  ⟨"Invalid model name: ",
   ". Valid models are: User, Folder, File, FileVersion, Share", by
    rw [invalidModelMsg_eq, String.append_assoc]⟩

/-- The error message contains every valid model name. -/
lemma invalidModelMsg_contains_models (t : String) :
    ∀ m ∈ VALID_MODELS, containsStr (invalidModelMsg t) m := by
  intro m hm
  simp only [VALID_MODELS, List.mem_cons, List.not_mem_nil, or_false] at hm
  rcases hm with h | h | h | h | h <;> subst h
  · exact ⟨"Invalid model name: " ++ t ++ ". Valid models are: ",
      ", Folder, File, FileVersion, Share", by
        simp only [invalidModelMsg_eq, String.append_assoc]
        rfl⟩
  · exact ⟨"Invalid model name: " ++ t ++ ". Valid models are: User, ",
      ", File, FileVersion, Share", by
        simp only [invalidModelMsg_eq, String.append_assoc]
        rfl⟩
  · exact ⟨"Invalid model name: " ++ t ++ ". Valid models are: User, Folder, ",
      ", FileVersion, Share", by
        simp only [invalidModelMsg_eq, String.append_assoc]
        rfl⟩
  · exact ⟨"Invalid model name: " ++ t ++ ". Valid models are: User, Folder, File, ",
      ", Share", by
        simp only [invalidModelMsg_eq, String.append_assoc]
        rfl⟩
  · exact ⟨"Invalid model name: " ++ t ++ ". Valid models are: User, Folder, File, FileVersion, ",
      "", by
        simp only [invalidModelMsg_eq, String.append_assoc]
        rfl⟩

/-- An invalid table name makes `getDelegate` throw. -/
lemma getDelegate_invalid {t : String} (h : isValidModel t = false) :
    getDelegate t = .error (invalidModelMsg t) := by
  simp [getDelegate, h]

/-- A valid table name makes `getDelegate` return the lowercased delegate of
the module-level client. -/
lemma getDelegate_valid {t : String} (h : isValidModel t = true) :
    getDelegate t = .ok ⟨prisma, toLowerCase t⟩ := by
  simp [getDelegate, h]

/-- When no record matches, the modelled update fails with `notFound`. -/
lemma dbUpdate_error_of_none {R : Type} {m : R → Bool} {u : R → R}
    {s : List R} (h : ∀ r ∈ s, m r = false) :
    dbUpdate m u s = .error .notFound := by
  induction s with
  | nil => rfl
  | cons r rs ih =>
    have hr : m r = false := h r (List.mem_cons_self r rs)
    have hrs : ∀ x ∈ rs, m x = false := fun x hx => h x (List.mem_cons_of_mem r hx)
    simp [dbUpdate, hr, ih hrs]

/-- The modelled update rewrites the first matching record in place. -/
lemma dbUpdate_first_match {R : Type} {m : R → Bool} {u : R → R}
    {s₁ : List R} {r : R} {s₂ : List R}
    (h₁ : ∀ x ∈ s₁, m x = false) (hr : m r = true) :
    dbUpdate m u (s₁ ++ r :: s₂) = .ok (u r, s₁ ++ u r :: s₂) := by
  induction s₁ with
  | nil => simp [dbUpdate, hr]
  | cons x xs ih =>
    have hx : m x = false := h₁ x (List.mem_cons_self x xs)
    have hxs : ∀ y ∈ xs, m y = false := fun y hy => h₁ y (List.mem_cons_of_mem x hy)
    simp [dbUpdate, hx, ih hxs]

/-! ## Claims -/

/-- C1: for every table-name string not in the allow-list
{User, Folder, File, FileVersion, Share}, every table-name-taking operation
(insert, find-one, find-first, find-many, update-one, upsert, delete-one,
count, update-many, delete-many) fails synchronously — the embedding returns
`Except.error`, i.e. the throw happens before any call reaches the database
client — with an error message that contains the invalid name and lists the
valid model names; for every name in the allow-list, the validation passes. -/
theorem c1_invalid_table_name_rejected {R F S O : Type} (t : String)
    (h : isValidModel t = false) (r : R) (l : List R) (sk : Bool)
    (q : F) (sel : Option S) (opts : Option (FindManyOptions F S O))
    (d du dc : R) (w : Option F) :
    insertRecord (F := F) (S := S) (O := O) t (.one r) sk = .error (invalidModelMsg t) ∧
    insertRecord (F := F) (S := S) (O := O) t (.many l) sk = .error (invalidModelMsg t) ∧
    findRecord (R := R) (O := O) t q sel = .error (invalidModelMsg t) ∧
    findFirstRecord (R := R) t opts = .error (invalidModelMsg t) ∧
    findManyRecords (R := R) t opts = .error (invalidModelMsg t) ∧
    updateRecord (S := S) (O := O) t q d = .error (invalidModelMsg t) ∧
    upsertRecord (S := S) (O := O) t q du (some dc) = .error (invalidModelMsg t) ∧
    upsertRecord (S := S) (O := O) t q du none = .error (invalidModelMsg t) ∧
    deleteRecord (R := R) (S := S) (O := O) t q = .error (invalidModelMsg t) ∧
    countRecords (R := R) (S := S) (O := O) t w = .error (invalidModelMsg t) ∧
    updateManyRecords (S := S) (O := O) t q d = .error (invalidModelMsg t) ∧
    deleteManyRecords (R := R) (S := S) (O := O) t q = .error (invalidModelMsg t) ∧
    containsStr (invalidModelMsg t) t ∧
    (∀ m ∈ VALID_MODELS, containsStr (invalidModelMsg t) m) ∧
    (∀ m ∈ VALID_MODELS, isValidModel m = true) := by
  refine ⟨?_, ?_, ?_, ?_, ?_, ?_, ?_, ?_, ?_, ?_, ?_, ?_,
    invalidModelMsg_contains_name t, invalidModelMsg_contains_models t, by decide⟩
  · simp [insertRecord, getDelegate_invalid h]
  · simp [insertRecord, getDelegate_invalid h]
  · simp [findRecord, getDelegate_invalid h]
  · simp [findFirstRecord, getDelegate_invalid h]
  · simp [findManyRecords, getDelegate_invalid h]
  · simp [updateRecord, getDelegate_invalid h]
  · simp [upsertRecord, getDelegate_invalid h]
  · simp [upsertRecord, getDelegate_invalid h]
  · simp [deleteRecord, getDelegate_invalid h]
  · simp [countRecords, getDelegate_invalid h]
  · simp [updateManyRecords, getDelegate_invalid h]
  · simp [deleteManyRecords, getDelegate_invalid h]

/-- Witness for C1 at the invalid table name "Account". -/
theorem c1_invalid_table_name_rejected_witness :
    isValidModel "Account" = false ∧
    (insertRecord (F := Nat) (S := Nat) (O := Nat) "Account" (.one (5 : Nat)) true = .error (invalidModelMsg "Account") ∧
     insertRecord (F := Nat) (S := Nat) (O := Nat) "Account" (.many [5, 6]) true = .error (invalidModelMsg "Account") ∧
     findRecord (R := Nat) (O := Nat) "Account" (1 : Nat) (some (2 : Nat)) = .error (invalidModelMsg "Account") ∧
     findFirstRecord (R := Nat) "Account" (none : Option (FindManyOptions Nat Nat Nat)) = .error (invalidModelMsg "Account") ∧
     findManyRecords (R := Nat) "Account" (none : Option (FindManyOptions Nat Nat Nat)) = .error (invalidModelMsg "Account") ∧
     updateRecord (S := Nat) (O := Nat) "Account" (1 : Nat) (3 : Nat) = .error (invalidModelMsg "Account") ∧
     upsertRecord (S := Nat) (O := Nat) "Account" (1 : Nat) (3 : Nat) (some (4 : Nat)) = .error (invalidModelMsg "Account") ∧
     upsertRecord (S := Nat) (O := Nat) "Account" (1 : Nat) (3 : Nat) none = .error (invalidModelMsg "Account") ∧
     deleteRecord (R := Nat) (S := Nat) (O := Nat) "Account" (1 : Nat) = .error (invalidModelMsg "Account") ∧
     countRecords (R := Nat) (S := Nat) (O := Nat) "Account" (some (1 : Nat)) = .error (invalidModelMsg "Account") ∧
     updateManyRecords (S := Nat) (O := Nat) "Account" (1 : Nat) (3 : Nat) = .error (invalidModelMsg "Account") ∧
     deleteManyRecords (R := Nat) (S := Nat) (O := Nat) "Account" (1 : Nat) = .error (invalidModelMsg "Account") ∧
     containsStr (invalidModelMsg "Account") "Account" ∧
     (∀ m ∈ VALID_MODELS, containsStr (invalidModelMsg "Account") m) ∧
     (∀ m ∈ VALID_MODELS, isValidModel m = true)) :=
  ⟨by decide,
   c1_invalid_table_name_rejected "Account" (by decide) 5 [5, 6] true 1 (some 2)
     none 3 3 4 (some 1)⟩

/-- C2 counterexample: with page = 0 and perPage = 10 both supplied together
with skip = 5 and take = 7, `findManyRecords` forwards skip = 5 (the raw
skip), not (page - 1) * perPage = -10: page and perPage are tested for
truthiness, so page = 0 does not take precedence, refuting the claim as
stated for every supplied page/perPage. -/
theorem c2_page_zero_counterexample :
    findManyRecords (R := Nat) "User"
        (some (⟨none, none, none, some 5, some 7, some 0, some 10⟩ :
          FindManyOptions Nat Nat Nat)) =
      .ok ⟨⟨prisma, "user"⟩, .findMany none none none (some 5) (some 10)⟩ ∧
    some (5 : Int) ≠ some (((0 : Int) - 1) * 10) := by
  constructor
  · rfl
  · decide

/-- C2 (amended): for every find-many call, if both page and per-page are
supplied *and nonzero* they take precedence over raw skip/take, and the
pagination forwarded to the underlying query is skip = (page - 1) * perPage,
take = perPage; find-many with page = 2, per-page = 10 issues the same
underlying query as find-many with skip = 10, take = 10 for identical
filter/projection/order; if neither skip, take, page nor per-page is
supplied, no skip and no take (hence no implicit limit) is passed to the
underlying query. -/
theorem c2_pagination {R F S O : Type} (t : String) (h : isValidModel t = true)
    (p pp : Int) (hp : p ≠ 0) (hpp : pp ≠ 0)
    (f : Option F) (sel : Option S) (ob : Option O) (sk tk : Option Int) :
    findManyRecords (R := R) t (some ⟨f, sel, ob, sk, tk, some p, some pp⟩) =
      .ok ⟨⟨prisma, toLowerCase t⟩, .findMany f sel ob (some ((p - 1) * pp)) (some pp)⟩ ∧
    findManyRecords (R := R) t (some ⟨f, sel, ob, none, none, some 2, some 10⟩) =
      findManyRecords (R := R) t (some ⟨f, sel, ob, some 10, some 10, none, none⟩) ∧
    findManyRecords (R := R) t (some ⟨f, sel, ob, none, none, none, none⟩) =
      .ok ⟨⟨prisma, toLowerCase t⟩, .findMany f sel ob none none⟩ ∧
    findManyRecords (R := R) t (none : Option (FindManyOptions F S O)) =
      .ok ⟨⟨prisma, toLowerCase t⟩, .findMany none none none none none⟩ := by
  have hp' : (p != 0) = true := by simpa using hp
  have hpp' : (pp != 0) = true := by simpa using hpp
  refine ⟨?_, ?_, ?_, ?_⟩
  · simp [findManyRecords, getDelegate_valid h, numTruthy, hp', hpp']
  · simp [findManyRecords, getDelegate_valid h, numTruthy]
  · simp [findManyRecords, getDelegate_valid h, numTruthy, emptyOptions]
  · simp [findManyRecords, getDelegate_valid h, numTruthy, emptyOptions]

/-- Witness for C2 (amended) on the User table with page = 3, perPage = 4,
raw skip = 9 and take = 11 also supplied. -/
theorem c2_pagination_witness :
    isValidModel "User" = true ∧ (3 : Int) ≠ 0 ∧ (4 : Int) ≠ 0 ∧
    (findManyRecords (R := Nat) "User"
        (some (⟨some 1, some 2, some 3, some 9, some 11, some 3, some 4⟩ :
          FindManyOptions Nat Nat Nat)) =
      .ok ⟨⟨prisma, toLowerCase "User"⟩,
        .findMany (some 1) (some 2) (some 3) (some (((3 : Int) - 1) * 4)) (some 4)⟩ ∧
    findManyRecords (R := Nat) "User"
        (some (⟨some 1, some 2, some 3, none, none, some 2, some 10⟩ :
          FindManyOptions Nat Nat Nat)) =
      findManyRecords (R := Nat) "User"
        (some (⟨some 1, some 2, some 3, some 10, some 10, none, none⟩ :
          FindManyOptions Nat Nat Nat)) ∧
    findManyRecords (R := Nat) "User"
        (some (⟨some 1, some 2, some 3, none, none, none, none⟩ :
          FindManyOptions Nat Nat Nat)) =
      .ok ⟨⟨prisma, toLowerCase "User"⟩,
        .findMany (some 1) (some 2) (some 3) none none⟩ ∧
    findManyRecords (R := Nat) "User" (none : Option (FindManyOptions Nat Nat Nat)) =
      .ok ⟨⟨prisma, toLowerCase "User"⟩, .findMany none none none none none⟩) :=
  ⟨by decide, by decide, by decide,
   c2_pagination "User" (by decide) 3 4 (by decide) (by decide)
     (some 1) (some 2) (some 3) (some 9) (some 11)⟩

/-- C3: for every valid table name, insert with a single record invokes the
delegate's single-create operation with that record, and insert with an
ordered list of records invokes the delegate's batch-insert operation
(`createMany`) with that list and the skip-duplicates flag, which defaults to
true when the caller omits it and is passed through unchanged when
supplied. -/
theorem c3_insert_dispatch {R F S O : Type} (t : String)
    (h : isValidModel t = true) (r : R) (l : List R) (sk : Bool) :
    insertRecord (F := F) (S := S) (O := O) t (.one r) sk =
      .ok ⟨⟨prisma, toLowerCase t⟩, .create r⟩ ∧
    insertRecord (F := F) (S := S) (O := O) t (.many l) sk =
      .ok ⟨⟨prisma, toLowerCase t⟩, .createMany l sk⟩ ∧
    insertRecordDefault (F := F) (S := S) (O := O) t (.many l) =
      .ok ⟨⟨prisma, toLowerCase t⟩, .createMany l true⟩ ∧
    insertRecordDefault (F := F) (S := S) (O := O) t (.one r) =
      .ok ⟨⟨prisma, toLowerCase t⟩, .create r⟩ := by
  refine ⟨?_, ?_, ?_, ?_⟩ <;>
    simp [insertRecord, insertRecordDefault, getDelegate_valid h]

/-- Witness for C3 on the FileVersion table, with the flag explicitly
supplied as false in the explicit-flag cases. -/
theorem c3_insert_dispatch_witness :
    isValidModel "FileVersion" = true ∧
    (insertRecord (F := Nat) (S := Nat) (O := Nat) "FileVersion" (.one (7 : Nat)) false =
      .ok ⟨⟨prisma, toLowerCase "FileVersion"⟩, .create 7⟩ ∧
    insertRecord (F := Nat) (S := Nat) (O := Nat) "FileVersion" (.many [7, 8]) false =
      .ok ⟨⟨prisma, toLowerCase "FileVersion"⟩, .createMany [7, 8] false⟩ ∧
    insertRecordDefault (F := Nat) (S := Nat) (O := Nat) "FileVersion" (.many [7, 8]) =
      .ok ⟨⟨prisma, toLowerCase "FileVersion"⟩, .createMany [7, 8] true⟩ ∧
    insertRecordDefault (F := Nat) (S := Nat) (O := Nat) "FileVersion" (.one (7 : Nat)) =
      .ok ⟨⟨prisma, toLowerCase "FileVersion"⟩, .create 7⟩) :=
  ⟨by decide, c3_insert_dispatch "FileVersion" (by decide) 7 [7, 8] false⟩

/-- C4: for every valid table name, unique filter, and update-fields, upsert
passes update-fields as the update payload and, when create-fields are
omitted, passes update-fields as the create payload (otherwise
create-fields); in the spec-modelled delegate semantics the create path is
taken only when the filter matches no record, so upsert called twice with
the same unique filter first creates a record and then updates that same
record, leaving exactly one record matching the filter afterward.  The
hypotheses state that the created record satisfies the unique filter and
that the update payload does not change the filtered-on unique fields. -/
theorem c4_upsert_create_then_update {R F S O : Type} (t : String)
    (h : isValidModel t = true) (q : F) (du dc : R)
    (m : R → Bool) (u : R → R) (c : R) (s : List R)
    (hnone : ∀ x ∈ s, m x = false) (hc : m c = true)
    (hu : ∀ x, m x = true → m (u x) = true) :
    upsertRecord (S := S) (O := O) t q du (some dc) =
      .ok ⟨⟨prisma, toLowerCase t⟩, .upsert q du dc⟩ ∧
    upsertRecord (S := S) (O := O) t q du none =
      .ok ⟨⟨prisma, toLowerCase t⟩, .upsert q du du⟩ ∧
    dbUpsert m u c s = s ++ [c] ∧
    dbUpsert m u c (s ++ [c]) = s ++ [u c] ∧
    (s ++ [u c]).countP m = 1 := by
  have h₁ : dbUpsert m u c s = s ++ [c] := by
    simp [dbUpsert, dbUpdate_error_of_none hnone]
  have h₂ : dbUpsert m u c (s ++ [c]) = s ++ [u c] := by
    simp [dbUpsert, dbUpdate_first_match hnone hc]
  have h₃ : s.countP m = 0 := by
    rw [List.countP_eq_zero]
    intro x hx
    simp [hnone x hx]
  refine ⟨?_, ?_, h₁, h₂, ?_⟩
  · simp [upsertRecord, getDelegate_valid h]
  · simp [upsertRecord, getDelegate_valid h]
  · rw [List.countP_append, h₃]
    simp [List.countP_cons, hu c hc]

/-- Witness for C4 on the Share table, with records as naturals, the unique
filter selecting the value 7, identity update, create payload 7, and an
initial store with no match. -/
theorem c4_upsert_create_then_update_witness :
    isValidModel "Share" = true ∧
    (∀ x ∈ [1, 2], (fun r : Nat => r == 7) x = false) ∧
    (fun r : Nat => r == 7) 7 = true ∧
    (∀ x : Nat, (fun r : Nat => r == 7) x = true →
      (fun r : Nat => r == 7) ((fun r : Nat => r) x) = true) ∧
    (upsertRecord (S := Nat) (O := Nat) "Share" (1 : Nat) (3 : Nat) (some (4 : Nat)) =
      .ok ⟨⟨prisma, toLowerCase "Share"⟩, .upsert 1 3 4⟩ ∧
    upsertRecord (S := Nat) (O := Nat) "Share" (1 : Nat) (3 : Nat) none =
      .ok ⟨⟨prisma, toLowerCase "Share"⟩, .upsert 1 3 3⟩ ∧
    dbUpsert (fun r : Nat => r == 7) (fun r : Nat => r) 7 [1, 2] = [1, 2] ++ [7] ∧
    dbUpsert (fun r : Nat => r == 7) (fun r : Nat => r) 7 ([1, 2] ++ [7]) =
      [1, 2] ++ [(fun r : Nat => r) 7] ∧
    ([1, 2] ++ [(fun r : Nat => r) 7]).countP (fun r : Nat => r == 7) = 1) :=
  ⟨by decide, by decide, by decide, fun x hx => hx,
   c4_upsert_create_then_update "Share" (by decide) 1 3 4
     (fun r : Nat => r == 7) (fun r : Nat => r) 7 [1, 2]
     (by decide) (by decide) (fun x hx => hx)⟩

/-- C5: for every query string and every list of positional parameters,
raw-query performs no allow-list validation — it never raises the
invalid-table-name error, regardless of the query text — and forwards the
query string and parameters unchanged to the underlying client's raw-query
primitive (`$queryRawUnsafe` on the module client). -/
theorem c5_raw_query_passthrough {P : Type} (q : String) (ps : List P) :
    executeRawQuery q ps = .ok (prisma, q, ps) ∧
    ∀ e, executeRawQuery q ps ≠ .error e :=
  ⟨rfl, fun _ hcontra => Except.noConfusion hcontra⟩

/-- C6: disconnect is a one-time, idempotent release of the shared handle:
running it twice reaches the same final state and performs the same
underlying `$disconnect` calls (the concatenated disconnect lists coincide)
as running it once; if the singleton holds a client it is disconnected
exactly once and the variable is nulled, and if the singleton is already
null the operation does nothing. -/
theorem c6_disconnect_idempotent (inst : Option Nat) :
    (disconnectPrismaClient (disconnectPrismaClient inst).1).1 =
      (disconnectPrismaClient inst).1 ∧
    (disconnectPrismaClient inst).2 ++
        (disconnectPrismaClient (disconnectPrismaClient inst).1).2 =
      (disconnectPrismaClient inst).2 ∧
    (∀ c, inst = some c → disconnectPrismaClient inst = (none, [c])) ∧
    (inst = none → disconnectPrismaClient inst = (none, [])) := by
  cases inst <;> simp [disconnectPrismaClient]

/-- C7: every unit of work run through the transaction operation commits or
rolls back as a whole in the spec-modelled `$transaction` semantics: if the
callback fails, the store afterward is the original store (no contained
operation's effect is visible) and the callback's error propagates
unchanged; if it succeeds, the callback's result is returned together with
its final store.  In particular, for a unit of work consisting of operation
A (which succeeds, producing store s₁) followed by operation B (which fails
with error e), the transaction leaves the original store s and surfaces e. -/
theorem c7_transaction_atomicity {σ ε α : Type}
    (cb : σ → Except ε (α × σ)) (s : σ)
    (A B : σ → Except ε σ) (s₁ : σ) (e : ε)
    (hA : A s = .ok s₁) (hB : B s₁ = .error e) :
    executeTransaction cb s = (prisma, prismaTransaction cb s) ∧
    (∀ e', cb s = .error e' → prismaTransaction cb s = (.error e', s)) ∧
    (∀ a s', cb s = .ok (a, s') → prismaTransaction cb s = (.ok a, s')) ∧
    executeTransaction (seqCallback [A, B]) s = (prisma, .error e, s) := by
  refine ⟨rfl, ?_, ?_, ?_⟩
  · intro e' he
    simp [prismaTransaction, he]
  · intro a s' ha
    simp [prismaTransaction, ha]
  · simp [executeTransaction, prismaTransaction, seqCallback, runOps, hA, hB]

/-- Witness for C7 with stores as naturals: A increments the store, B always
fails with error 42; starting from store 0 the transaction yields error 42
and the untouched store 0. -/
theorem c7_transaction_atomicity_witness :
    (fun s : Nat => (Except.ok (s + 1) : Except Nat Nat)) 0 = .ok 1 ∧
    (fun _ : Nat => (Except.error 42 : Except Nat Nat)) 1 = .error 42 ∧
    (executeTransaction (fun s : Nat => (Except.ok (s, s + 1) : Except Nat (Nat × Nat))) 0 =
      (prisma, prismaTransaction (fun s : Nat => (Except.ok (s, s + 1) : Except Nat (Nat × Nat))) 0) ∧
    (∀ e', (fun s : Nat => (Except.ok (s, s + 1) : Except Nat (Nat × Nat))) 0 = .error e' →
      prismaTransaction (fun s : Nat => (Except.ok (s, s + 1) : Except Nat (Nat × Nat))) 0 = (.error e', 0)) ∧
    (∀ a s', (fun s : Nat => (Except.ok (s, s + 1) : Except Nat (Nat × Nat))) 0 = .ok (a, s') →
      prismaTransaction (fun s : Nat => (Except.ok (s, s + 1) : Except Nat (Nat × Nat))) 0 = (.ok a, s')) ∧
    executeTransaction
        (seqCallback [fun s : Nat => (Except.ok (s + 1) : Except Nat Nat),
          fun _ : Nat => (Except.error 42 : Except Nat Nat)]) 0 =
      (prisma, .error 42, 0)) :=
  ⟨rfl, rfl,
   c7_transaction_atomicity (fun s : Nat => (Except.ok (s, s + 1) : Except Nat (Nat × Nat))) 0
     (fun s : Nat => (Except.ok (s + 1) : Except Nat Nat))
     (fun _ : Nat => (Except.error 42 : Except Nat Nat)) 1 42 rfl rfl⟩

/-- C8: for every valid table name, update-one forwards the unique filter and
the update payload to the delegate's `update` method; in the spec-modelled
delegate semantics, when the filter matches zero records the update fails
with the not-found error and the stored data set is unchanged, and when the
filter matches a record the updated record is returned (with the store
rewritten in place). -/
theorem c8_update_not_found {R F S O : Type} (t : String)
    (h : isValidModel t = true) (q : F) (d : R)
    (m : R → Bool) (u : R → R) (s s₁ s₂ : List R) (r : R) :
    updateRecord (S := S) (O := O) t q d =
      .ok ⟨⟨prisma, toLowerCase t⟩, .update q d⟩ ∧
    ((∀ x ∈ s, m x = false) →
      dbUpdate m u s = .error .notFound ∧ dbUpdateStore m u s = s) ∧
    ((∀ x ∈ s₁, m x = false) → m r = true →
      dbUpdate m u (s₁ ++ r :: s₂) = .ok (u r, s₁ ++ u r :: s₂)) := by
  refine ⟨?_, ?_, ?_⟩
  · simp [updateRecord, getDelegate_valid h]
  · intro hnone
    have he := dbUpdate_error_of_none (u := u) hnone
    exact ⟨he, by simp [dbUpdateStore, he]⟩
  · intro h₁ hr
    exact dbUpdate_first_match h₁ hr

/-- Witness for C8 on the Folder table: the filter selects the value 7, the
update increments; the store [1, 2] has no match, the store [1] ++ 7 :: [2]
has the match 7. -/
theorem c8_update_not_found_witness :
    isValidModel "Folder" = true ∧
    (updateRecord (S := Nat) (O := Nat) "Folder" (1 : Nat) (3 : Nat) =
      .ok ⟨⟨prisma, toLowerCase "Folder"⟩, .update 1 3⟩ ∧
    ((∀ x ∈ [1, 2], (fun r : Nat => r == 7) x = false) →
      dbUpdate (fun r : Nat => r == 7) (fun r : Nat => r + 1) [1, 2] = .error .notFound ∧
      dbUpdateStore (fun r : Nat => r == 7) (fun r : Nat => r + 1) [1, 2] = [1, 2]) ∧
    ((∀ x ∈ [1], (fun r : Nat => r == 7) x = false) → (fun r : Nat => r == 7) 7 = true →
      dbUpdate (fun r : Nat => r == 7) (fun r : Nat => r + 1) ([1] ++ 7 :: [2]) =
        .ok ((fun r : Nat => r + 1) 7, [1] ++ (fun r : Nat => r + 1) 7 :: [2]))) :=
  ⟨by decide,
   c8_update_not_found "Folder" (by decide) 1 3
     (fun r : Nat => r == 7) (fun r : Nat => r + 1) [1, 2] [1] [2] 7⟩

/-- C9 (implicit): although find-first accepts the same options object as
find-many (including the skip, take, page and perPage fields), it forwards
only the filter, projection and ordering to the underlying query; for every
table name and every pair of option objects differing only in
skip/take/page/perPage, find-first issues the identical underlying query
(and, the table being valid, that query is `findFirst` with exactly the
filter, projection and ordering). -/
theorem c9_find_first_ignores_pagination {R F S O : Type} (t : String)
    (o₁ o₂ : FindManyOptions F S O)
    (hf : o₁.filter = o₂.filter) (hs : o₁.select = o₂.select)
    (ho : o₁.orderBy = o₂.orderBy) :
    findFirstRecord (R := R) t (some o₁) = findFirstRecord (R := R) t (some o₂) ∧
    (isValidModel t = true →
      findFirstRecord (R := R) t (some o₁) =
        .ok ⟨⟨prisma, toLowerCase t⟩, .findFirst o₁.filter o₁.select o₁.orderBy⟩) := by
  constructor
  · simp [findFirstRecord, hf, hs, ho]
  · intro h
    simp [findFirstRecord, getDelegate_valid h]

/-- Witness for C9 on the File table: two option objects with identical
filter/projection/order, one carrying skip = 4, take = 5, page = 6,
perPage = 7 and the other carrying no pagination at all. -/
theorem c9_find_first_ignores_pagination_witness :
    (⟨some 1, some 2, some 3, some 4, some 5, some 6, some 7⟩ :
        FindManyOptions Nat Nat Nat).filter =
      (⟨some 1, some 2, some 3, none, none, none, none⟩ :
        FindManyOptions Nat Nat Nat).filter ∧
    (⟨some 1, some 2, some 3, some 4, some 5, some 6, some 7⟩ :
        FindManyOptions Nat Nat Nat).select =
      (⟨some 1, some 2, some 3, none, none, none, none⟩ :
        FindManyOptions Nat Nat Nat).select ∧
    (⟨some 1, some 2, some 3, some 4, some 5, some 6, some 7⟩ :
        FindManyOptions Nat Nat Nat).orderBy =
      (⟨some 1, some 2, some 3, none, none, none, none⟩ :
        FindManyOptions Nat Nat Nat).orderBy ∧
    (findFirstRecord (R := Nat) "File"
        (some (⟨some 1, some 2, some 3, some 4, some 5, some 6, some 7⟩ :
          FindManyOptions Nat Nat Nat)) =
      findFirstRecord (R := Nat) "File"
        (some (⟨some 1, some 2, some 3, none, none, none, none⟩ :
          FindManyOptions Nat Nat Nat)) ∧
    (isValidModel "File" = true →
      findFirstRecord (R := Nat) "File"
          (some (⟨some 1, some 2, some 3, some 4, some 5, some 6, some 7⟩ :
            FindManyOptions Nat Nat Nat)) =
        .ok ⟨⟨prisma, toLowerCase "File"⟩,
          .findFirst (⟨some 1, some 2, some 3, some 4, some 5, some 6, some 7⟩ :
            FindManyOptions Nat Nat Nat).filter
            (⟨some 1, some 2, some 3, some 4, some 5, some 6, some 7⟩ :
              FindManyOptions Nat Nat Nat).select
            (⟨some 1, some 2, some 3, some 4, some 5, some 6, some 7⟩ :
              FindManyOptions Nat Nat Nat).orderBy⟩)) :=
  ⟨rfl, rfl, rfl,
   c9_find_first_ignores_pagination "File"
     (⟨some 1, some 2, some 3, some 4, some 5, some 6, some 7⟩ :
       FindManyOptions Nat Nat Nat)
     (⟨some 1, some 2, some 3, none, none, none, none⟩ :
       FindManyOptions Nat Nat Nat) rfl rfl rfl⟩

/-- C10 (implicit): every CRUD, transaction and raw-query helper dispatches
through the single client instance created once at module initialization
(`prisma`, the client returned by the first `getPrismaClient` call on the
initially null singleton); after disconnect nulls the singleton variable, a
later call to `getPrismaClient` stores and returns a freshly constructed
instance, but the helper operations continue to reference the original (now
disconnected) instance and never observe the fresh one. -/
theorem c10_helpers_use_original_instance {F S O P σ ε α : Type} (t : String)
    (h : isValidModel t = true) (fresh : Nat) (hfresh : fresh ≠ prisma)
    (w : Option F) (q : String) (ps : List P)
    (cb : σ → Except ε (α × σ)) (st : σ) :
    prisma = (getPrismaClient initialInstance 0).1 ∧
    instanceAfterInit = some prisma ∧
    getDelegate t = .ok ⟨prisma, toLowerCase t⟩ ∧
    countRecords (R := Nat) (S := S) (O := O) t w =
      .ok ⟨⟨prisma, toLowerCase t⟩, .count w⟩ ∧
    executeRawQuery q ps = .ok (prisma, q, ps) ∧
    (executeTransaction cb st).1 = prisma ∧
    (disconnectPrismaClient instanceAfterInit).1 = none ∧
    (getPrismaClient (disconnectPrismaClient instanceAfterInit).1 fresh).1 = fresh ∧
    (getPrismaClient (disconnectPrismaClient instanceAfterInit).1 fresh).2 = some fresh ∧
    (getPrismaClient (disconnectPrismaClient instanceAfterInit).1 fresh).1 ≠ prisma := by
  refine ⟨rfl, rfl, getDelegate_valid h, ?_, rfl, rfl, rfl, rfl, rfl, ?_⟩
  · simp [countRecords, getDelegate_valid h]
  · simpa [getPrismaClient, disconnectPrismaClient, instanceAfterInit,
      initialInstance] using hfresh

/-- Witness for C10 on the User table with fresh client id 1: the recreated
instance is client 1 while every helper still dispatches through client
`prisma` = 0. -/
theorem c10_helpers_use_original_instance_witness :
    isValidModel "User" = true ∧ (1 : Nat) ≠ prisma ∧
    (prisma = (getPrismaClient initialInstance 0).1 ∧
    instanceAfterInit = some prisma ∧
    getDelegate "User" = .ok ⟨prisma, toLowerCase "User"⟩ ∧
    countRecords (R := Nat) (S := Nat) (O := Nat) "User" (some (2 : Nat)) =
      .ok ⟨⟨prisma, toLowerCase "User"⟩, .count (some 2)⟩ ∧
    executeRawQuery "SELECT 1" ([3] : List Nat) = .ok (prisma, "SELECT 1", [3]) ∧
    (executeTransaction (fun s : Nat => (Except.ok (s, s) : Except Nat (Nat × Nat))) 0).1 = prisma ∧
    (disconnectPrismaClient instanceAfterInit).1 = none ∧
    (getPrismaClient (disconnectPrismaClient instanceAfterInit).1 1).1 = 1 ∧
    (getPrismaClient (disconnectPrismaClient instanceAfterInit).1 1).2 = some 1 ∧
    (getPrismaClient (disconnectPrismaClient instanceAfterInit).1 1).1 ≠ prisma) :=
  ⟨by decide, by decide,
   c10_helpers_use_original_instance "User" (by decide) 1 (by decide)
     (some (2 : Nat)) "SELECT 1" ([3] : List Nat)
     (fun s : Nat => (Except.ok (s, s) : Except Nat (Nat × Nat))) 0⟩

end AxtroPrisma
